import Mathlib

/-
Verification development for the FBref import script
(src/projects/00_data_import_and_misc_work/import_data_fbref.py).

The script's tabular data (pandas DataFrames) is modelled as a rectangular
table of named columns over cells that are either a string or a missing
value (pandas NaN / None are collapsed into one missing value `Val.na`,
which compares equal to itself — this matches pandas behaviour in
`drop_duplicates` and `merge`, where NaN keys match each other).
HTML input (BeautifulSoup tables) is modelled structurally: a table is a
list of header rows plus an optional tbody, rows carry a class list and
cells, cells carry a data-stat attribute and a list of anchors.

Numeric coercion (`convert_numeric_columns`) plays no role in any claim
and is not modelled; cell payloads stay strings.
-/

set_option maxHeartbeats 1000000

namespace FBrefModel

/-- A cell value: a string, or a missing value (pandas NaN/None). -/
inductive Val where
  | str (s : String)
  | na
deriving DecidableEq, Repr

/-- `Val` from an optional string, as pandas stores `None` as a missing value. -/
def Val.ofOption : Option String → Val
  | some s => .str s
  | none => .na

/-- A pandas DataFrame: ordered column names and a list of rows.
Each row is a list of cell values, positionally aligned with `cols`. -/
structure DataFrame where
  cols : List String
  rows : List (List Val)
deriving DecidableEq, Repr

/-- Rectangularity: every row has exactly one cell per column. -/
def DataFrame.WF (df : DataFrame) : Prop :=
  ∀ r ∈ df.rows, r.length = df.cols.length

/-- `df.empty` in pandas: true when any axis has length zero. -/
def dfEmpty (df : DataFrame) : Bool :=
  df.rows.isEmpty || df.cols.isEmpty

/-- Substring test on character lists: Python's `needle in hay`. -/
def listContains (hay needle : List Char) : Bool :=
  match hay with
  | [] => needle.isEmpty
  | _ :: t => needle.isPrefixOf hay || listContains t needle

/-- Python's `sub in s` substring containment on strings. -/
def strContains (s sub : String) : Bool :=
  listContains s.toList sub.toList

/-- Python's `str.strip()`: remove leading and trailing whitespace. -/
def pyStrip (s : String) : String :=
  String.mk (((s.toList.dropWhile Char.isWhitespace).reverse.dropWhile
    Char.isWhitespace).reverse)

/-- Value of column `c` in a row laid out along `cols`; missing column reads
as a missing value (our tables are only ever read at existing columns). -/
def cellVal (cols : List String) (row : List Val) (c : String) : Val :=
  match cols.findIdx? (fun x => x = c) with
  | some i => row.getD i Val.na
  | none => Val.na

/-- The values of one column, in row order (pandas `df[c]`). -/
def getCol (df : DataFrame) (c : String) : List Val :=
  df.rows.map (fun row => cellVal df.cols row c)

/-- Pandas column assignment `df[c] = vs`: overwrite the column in place if it
exists, else append it as the last column. -/
def setCol (df : DataFrame) (c : String) (vs : List Val) : DataFrame :=
  match df.cols.findIdx? (fun x => x = c) with
  | some i => ⟨df.cols, (df.rows.zip vs).map (fun rv => rv.1.set i rv.2)⟩
  | none => ⟨df.cols ++ [c], (df.rows.zip vs).map (fun rv => rv.1 ++ [rv.2])⟩

/-- Python `dict` insertion: replace the value in place if the key exists
(keeping its position), else append the pair. -/
def insertD (m : List (String × String)) (k v : String) : List (String × String) :=
  if m.any (fun p => p.1 = k) then
    m.map (fun p => if p.1 = k then (k, v) else p)
  else
    m ++ [(k, v)]

/-- Python `dict` lookup (`dict.get`): value of the unique entry with the key. -/
def findD (m : List (String × String)) (k : String) : Option String :=
  (m.find? (fun p => p.1 = k)).map (fun p => p.2)

/-! ### HTML (BeautifulSoup) model -/

/-- HTML cell kind: `td` or `th`. -/
inductive CellTag where
  | td
  | th
deriving DecidableEq, Repr

/-- An anchor element: optional `href` attribute and visible text. -/
structure Anchor where
  href : Option String
  text : String
deriving DecidableEq, Repr

/-- A table cell: tag kind, `data-stat` attribute, contained anchors in order. -/
structure Cell where
  tag : CellTag
  dataStat : String
  anchors : List Anchor
deriving DecidableEq, Repr

/-- A table row: its `class` attribute values and its cells in order. -/
structure HRow where
  classes : List String
  cells : List Cell
deriving DecidableEq, Repr

/-- An HTML table: rows outside the body, and the tbody rows when a tbody
element is present. -/
structure HtmlTable where
  headRows : List HRow
  tbody : Option (List HRow)
deriving DecidableEq, Repr

/-- Lower-case hex digit, the character class `[a-f0-9]` of the href patterns. -/
def isHexLower (c : Char) : Bool :=
  (decide ('a' ≤ c) && decide (c ≤ 'f')) || (decide ('0' ≤ c) && decide (c ≤ '9'))

/-- Try to match `pre` ++ `[a-f0-9]+` ++ `"/"` at the start of `cs`, returning
the captured hex identifier. Since `/` is not a hex digit, the greedy capture
of the Python regex takes exactly the maximal hex run. -/
def matchIdAt (pre : List Char) (cs : List Char) : Option String :=
  if pre.isPrefixOf cs then
    let rest := cs.drop pre.length
    let hex := rest.takeWhile isHexLower
    if hex.isEmpty then none
    else if (rest.drop hex.length).head? = some '/' then some (String.mk hex)
    else none
  else none

/-- `re.search` for the pattern `pre ++ "([a-f0-9]+)/"`: try each start
position left to right (`pre` is nonempty in all uses, so the empty suffix
never matches and stopping at `[]` is faithful). -/
def searchIdHref (pre : List Char) : List Char → Option String
  | [] => none
  | c :: rest =>
    match matchIdAt pre (c :: rest) with
    | some s => some s
    | none => searchIdHref pre rest

/-! ### flatten_multiindex_columns -/

/-- A pandas column index: single-level names, or a two-level MultiIndex of
(group label, sub-label) pairs. -/
inductive Cols where
  | flat (names : List String)
  | multi (pairs : List (String × String))
deriving DecidableEq, Repr

/-- A table as returned by `pd.read_html`, before header flattening. -/
structure RawDF where
  columns : Cols
  rows : List (List Val)
deriving DecidableEq, Repr

/-- `flatten_multiindex_columns` (import_data_fbref.py:133-152): a non-multi
header passes through unchanged; each two-level column becomes the sub-label
alone when the group label contains "Unnamed" (pandas placeholder), else
group label ++ " " ++ sub-label, stripped; then rows whose "Rk" cell equals
the literal string "Rk" are dropped (in a MultiIndex every column is a tuple,
so the non-tuple branch of the loop is vacuous and is not modelled). -/
def flatten_multiindex_columns (df : RawDF) : RawDF :=
  match df.columns with
  | .flat _ => df
  | .multi prs =>
    let new_col_names := prs.map (fun col =>
      if strContains col.1 "Unnamed" then pyStrip col.2
      else pyStrip (col.1 ++ " " ++ col.2))
    if "Rk" ∈ new_col_names then
      ⟨.flat new_col_names,
        df.rows.filter (fun row =>
          decide (¬ cellVal new_col_names row "Rk" = Val.str "Rk"))⟩
    else ⟨.flat new_col_names, df.rows⟩

/-! ### extract_ids_from_soup -/

/-- Href pattern prefix `/en/players/` for players, `/en/squads/` otherwise,
as in the f-string regex of import_data_fbref.py:171. -/
def patPre (id_type : String) : String :=
  "/en/" ++ (if id_type = "player" then "players" else "squads") ++ "/"

/-- The cells scanned by `extract_ids_from_soup`: `td` cells with
`data-stat="player"` for players, `th` cells with `data-stat="team"`
otherwise, over the whole table in document order. -/
def relevantCells (t : HtmlTable) (id_type : String) : List Cell :=
  ((t.headRows ++ t.tbody.getD []).map (fun r => r.cells)).flatten.filter
    (fun c =>
      if id_type = "player" then
        decide (c.tag = CellTag.td) && decide (c.dataStat = "player")
      else
        decide (c.tag = CellTag.th) && decide (c.dataStat = "team"))

/-- One loop iteration of `extract_ids_from_soup`: take the cell's first
anchor (`td.find("a")`); `if link and link.get("href")` — a missing or empty
href is falsy and skipped; then `re.search` the id pattern, and on a match
insert stripped link text ↦ captured id into the dict. -/
def cellStep (pre : String) (m : List (String × String)) (c : Cell) :
    List (String × String) :=
  match c.anchors.head? with
  | none => m
  | some a =>
    match a.href with
    | none => m
    | some h =>
      if h = "" then m
      else
        match searchIdHref pre.toList h.toList with
        | none => m
        | some entity_id => insertD m (pyStrip a.text) entity_id

/-- `extract_ids_from_soup` (import_data_fbref.py:155-194): name ↦ id
mapping built from the relevant cells; `None` table yields the empty map. -/
def extract_ids_from_soup (soup_table : Option HtmlTable) (id_type : String) :
    List (String × String) :=
  match soup_table with
  | none => []
  | some t => (relevantCells t id_type).foldl (cellStep (patPre id_type)) []

/-! ### extract_player_team_ids_from_soup -/

/-- First id extracted from the first anchor of the first cell of the row
with the given `data-stat`, using `link.get("href", "")` (default empty). -/
def rowCellId (row : HRow) (stat : String) (pre : String) : Option String :=
  match row.cells.find? (fun c => c.dataStat = stat) with
  | none => none
  | some cell =>
    match cell.anchors.head? with
    | none => none
    | some a => searchIdHref pre.toList (a.href.getD "").toList

/-- `extract_player_team_ids_from_soup` (import_data_fbref.py:207-255):
walk the tbody rows (no tbody — also Python-falsy when it has no children —
yields the empty list), skip rows with a "thead"-like class, and collect the
(player id, team id) pair of each remaining row, either side possibly absent. -/
def extract_player_team_ids_from_soup (soup_table : Option HtmlTable) :
    List (Option String × Option String) :=
  match soup_table with
  | none => []
  | some t =>
    match t.tbody with
    | none => []
    | some trs =>
      (trs.filter (fun row =>
          !(row.classes.any (fun c => strContains c "thead")))).map
        (fun row =>
          (rowCellId row "player" "/en/players/",
           rowCellId row "team" "/en/squads/"))

/-! ### add_team_id_to_player_df -/

/-- `df[name].map(id_map)` cell-wise: a string is looked up in the dict
(absent keys become missing), a missing value stays missing. -/
def lookupVal (m : List (String × String)) : Val → Val
  | .str s =>
    match findD m s with
    | some t => .str t
    | none => .na
  | .na => .na

/-- `add_team_id_to_player_df` (import_data_fbref.py:258-277): empty
association list returns the table unchanged; with matching counts the team
ids of the entries with a present player id are assigned positionally as the
"Team ID" column; otherwise a player-id ↦ team-id dict is built from the
entries where both ids are truthy (`if pid and tid`: present and nonempty)
and, when a "Player ID" column exists, "Team ID" is assigned by lookup. -/
def add_team_id_to_player_df (df : DataFrame)
    (rows_data : List (Option String × Option String)) : DataFrame :=
  if rows_data = [] then df
  else
    let valid_rows := rows_data.filter (fun r => r.1.isSome)
    if valid_rows.length ≠ df.rows.length then
      let id_map := valid_rows.foldl (fun m r =>
        match r.1, r.2 with
        | some p, some t => if p = "" ∨ t = "" then m else insertD m p t
        | _, _ => m) []
      if "Player ID" ∈ df.cols then
        setCol df "Team ID" ((getCol df "Player ID").map (lookupVal id_map))
      else df
    else
      setCol df "Team ID" (valid_rows.map (fun r => Val.ofOption r.2))

/-! ### get_merge_keys -/

/-- `get_merge_keys` (import_data_fbref.py:280-307). -/
def get_merge_keys (df : DataFrame) (data_type : String) : List String :=
  if data_type = "team" then
    if "Team ID" ∈ df.cols then ["Team ID"]
    else if "Squad" ∈ df.cols then ["Squad"]
    else []
  else if data_type = "player" then
    let keys := (if "Player ID" ∈ df.cols then ["Player ID"] else [])
      ++ (if "Team ID" ∈ df.cols then ["Team ID"] else [])
    if keys = [] then
      (if "Player" ∈ df.cols then ["Player"] else [])
        ++ (if "Squad" ∈ df.cols then ["Squad"] else [])
    else keys
  else []

/-! ### safe_merge -/

/-- Key tuple of a row: the values of the key columns, in key order. -/
def keyTuple (cols : List String) (ek : List String) (row : List Val) :
    List Val :=
  ek.map (cellVal cols row)

/-- `drop_duplicates(subset=·)` row scan: keep a row when its key tuple has
not been seen yet (pandas `keep="first"`; NaN keys compare equal, as in
pandas). -/
def dedupGo (proj : List Val → List Val) (seen : List (List Val)) :
    List (List Val) → List (List Val)
  | [] => []
  | r :: rs =>
    if proj r ∈ seen then dedupGo proj seen rs
    else r :: dedupGo proj (proj r :: seen) rs

/-- `right_df.drop_duplicates(subset=existing_keys)`. -/
def dropDuplicates (df : DataFrame) (ek : List String) : DataFrame :=
  ⟨df.cols, dedupGo (keyTuple df.cols ek) [] df.rows⟩

/-- `pd.merge(l, r, on=ek, suffixes=sfx, how="outer")`. Result columns: the
left columns (a non-key name also present on the right gets suffix `sfx.1`),
then the right non-key columns (suffixed with `sfx.2` when colliding with a
left column). Result rows: each left row joined with its key-matching right
rows (or right side filled with missing values when unmatched), followed by
the unmatched right rows with the left non-key side filled with missing
values. Pandas may order an outer join's rows differently (sorted keys); the
spec declares row order irrelevant after a merge, and no claim depends on it. -/
def mergeOuter (l r : DataFrame) (ek : List String) (sfx : String × String) :
    DataFrame :=
  let rNonKey := r.cols.filter (fun c => decide (¬ c ∈ ek))
  let lCols := l.cols.map (fun c =>
    if c ∈ ek then c else if c ∈ r.cols then c ++ sfx.1 else c)
  let rCols := rNonKey.map (fun c => if c ∈ l.cols then c ++ sfx.2 else c)
  let lkey := keyTuple l.cols ek
  let rkey := keyTuple r.cols ek
  let rExtra := fun (row : List Val) => rNonKey.map (cellVal r.cols row)
  let matched := (l.rows.map (fun lr =>
    let ms := r.rows.filter (fun rr => decide (rkey rr = lkey lr))
    if ms.isEmpty then [lr ++ rNonKey.map (fun _ => Val.na)]
    else ms.map (fun rr => lr ++ rExtra rr))).flatten
  let unmatched := r.rows.filter (fun rr =>
    l.rows.all (fun lr => decide (¬ lkey lr = rkey rr)))
  let extraRows := unmatched.map (fun rr =>
    l.cols.map (fun c => if c ∈ ek then cellVal r.cols rr c else Val.na)
      ++ rExtra rr)
  ⟨lCols ++ rCols, matched ++ extraRows⟩

/-- The keys of `merge_keys` present in both tables (import_data_fbref.py:329). -/
def existingKeys (l r : DataFrame) (merge_keys : List String) : List String :=
  merge_keys.filter (fun k => decide (k ∈ l.cols ∧ k ∈ r.cols))

/-- `safe_merge` (import_data_fbref.py:310-350), returning the result table
together with whether the fan-out warning was printed. The Python condition
`len(merged) > len(left_df) * 1.5` compares integers with the float `1.5`;
for any feasible table size `n`, `n * 1.5` is exact in double precision, so
it is modelled as the exact comparison `2 * len(merged) > 3 * len(left)`. -/
def safe_merge (left_df right_df : DataFrame) (merge_keys : List String)
    (suffixes : String × String) : DataFrame × Bool :=
  if dfEmpty left_df then (right_df, false)
  else if dfEmpty right_df then (left_df, false)
  else if merge_keys = [] then (left_df, false)
  else
    let existing_keys := existingKeys left_df right_df merge_keys
    if existing_keys = [] then (left_df, false)
    else
      let right_deduped := dropDuplicates right_df existing_keys
      let merged := mergeOuter left_df right_deduped existing_keys suffixes
      (merged,
        decide (2 * merged.rows.length > 3 * left_df.rows.length
          ∧ merged.rows.length > 100))

/-- The default `suffixes=("", "_duplicate")` of `safe_merge`, used at every
call site. -/
def dupSuffixes : String × String := ("", "_duplicate")

/-! ### remove_duplicate_columns and the driver's finalization step -/

/-- `remove_duplicate_columns` (import_data_fbref.py:353-355):
`df.loc[:, [col for col in df.columns if "_duplicate" not in col]]`. -/
def remove_duplicate_columns (df : DataFrame) : DataFrame :=
  let keep := df.cols.filter (fun col => !(strContains col "_duplicate"))
  ⟨keep, df.rows.map (fun row => keep.map (cellVal df.cols row))⟩

/-- Driver lines 509-511: strip merge-artifact columns from the three
consolidated tables (team-for, team-against, player). -/
def strip_artifact_columns (ts : DataFrame × DataFrame × DataFrame) :
    DataFrame × DataFrame × DataFrame :=
  (remove_duplicate_columns ts.1, remove_duplicate_columns ts.2.1,
   remove_duplicate_columns ts.2.2)

/-! ### Spec-side descriptions

Definitions in this section follow the wording of the specification (for
refinement-style claims); they are compared with the source translations
above. -/

/-- Spec wording for the Safe Merger's deduplication: "one row per distinct
key combination, keeping the first occurrence among duplicates" — keep each
row and drop every later row with the same key projection. -/
def keepFirstSpec (proj : List Val → List Val) : List (List Val) → List (List Val)
  | [] => []
  | r :: rs =>
    r :: keepFirstSpec proj (rs.filter (fun x => decide (¬ proj x = proj r)))
termination_by l => l.length
decreasing_by
  simp only [List.length_cons]
  exact Nat.lt_succ_of_le (List.length_filter_le _ _)

/-- Spec wording for the Row Enricher's fallback map source: "the pairs in
which both identifiers are present". -/
def presentPairs (rows_data : List (Option String × Option String)) :
    List (String × String) :=
  rows_data.filterMap (fun r =>
    match r.1, r.2 with
    | some p, some t => some (p, t)
    | _, _ => none)

/-- A Python dict built by inserting the pairs in order (later pairs
overwrite earlier ones). -/
def buildDict (prs : List (String × String)) : List (String × String) :=
  prs.foldl (fun m pt => insertD m pt.1 pt.2) []

/-- Whether a cell would contribute an entry in `extract_ids_from_soup`: its
first anchor exists, has a nonempty href, and the href matches the id
pattern. -/
def cellHasId (pre : String) (c : Cell) : Bool :=
  match c.anchors.head? with
  | none => false
  | some a =>
    match a.href with
    | none => false
    | some h =>
      if h = "" then false
      else (searchIdHref pre.toList h.toList).isSome

/-! ### Dict lemmas -/

theorem findD_nil (q : String) : findD [] q = none := rfl

theorem findD_cons (p : String × String) (m : List (String × String)) (q : String) :
    findD (p :: m) q = if p.1 = q then some p.2 else findD m q := by
  simp only [findD, List.find?]
  by_cases h : p.1 = q
  · simp [h]
  · simp [h]

theorem findD_append_single (m : List (String × String)) (k v q : String)
    (h : m.any (fun p => p.1 = k) = false) :
    findD (m ++ [(k, v)]) q = if q = k then some v else findD m q := by
  induction m with
  | nil =>
    simp only [List.nil_append, findD_nil, findD_cons]
    by_cases hqk : q = k
    · simp [hqk]
    · simp [hqk, Ne.symm hqk]
  | cons p m ih =>
    simp only [List.any_cons, Bool.or_eq_false_iff, decide_eq_false_iff_not] at h
    simp only [List.cons_append, findD_cons]
    by_cases hpq : p.1 = q
    · have hqk : ¬ q = k := fun hh => h.1 (hpq.trans hh)
      simp [hpq, hqk]
    · simp only [hpq, if_false]
      exact ih h.2

theorem findD_map_replace (m : List (String × String)) (k v q : String) :
    findD (m.map (fun p => if p.1 = k then (k, v) else p)) q
      = (m.find? (fun p => decide (p.1 = q))).map
          (fun p => if p.1 = k then v else p.2) := by
  induction m with
  | nil => rfl
  | cons p m ih =>
    simp only [List.map_cons, findD_cons, List.find?]
    by_cases hpk : p.1 = k
    · by_cases hpq : p.1 = q
      · simp [hpk, hpq, hpk ▸ hpq]
      · have hkq : ¬ k = q := fun hh => hpq (hpk.trans hh)
        simp [hpk, hpq, hkq, ih]
    · by_cases hpq : p.1 = q
      · have hqk : ¬ q = k := fun hh => hpk (hpq.trans hh)
        simp [hpk, hpq, hqk]
      · simp [hpk, hpq, ih]

theorem findD_insertD (m : List (String × String)) (k v q : String) :
    findD (insertD m k v) q = if q = k then some v else findD m q := by
  unfold insertD
  by_cases hany : m.any (fun p => p.1 = k) = true
  · simp only [hany, if_true, findD_map_replace]
    by_cases hqk : q = k
    · subst hqk
      obtain ⟨p, hp, hpk⟩ := List.any_eq_true.mp hany
      have hsome : (m.find? (fun p => decide (p.1 = q))).isSome := by
        rw [List.find?_isSome]
        exact ⟨p, hp, by simpa using of_decide_eq_true hpk⟩
      obtain ⟨e, he⟩ := Option.isSome_iff_exists.mp hsome
      have hek : e.1 = q := by
        have := List.find?_some he
        simpa using this
      simp [he, hek]
    · simp only [hqk, if_false, findD]
      cases he : m.find? (fun p => decide (p.1 = q)) with
      | none => simp
      | some e =>
        have hek : e.1 = q := by
          have := List.find?_some he
          simpa using this
        have : ¬ e.1 = k := fun hh => hqk (hek ▸ hh.symm ▸ rfl)
        simp [this]
  · rw [Bool.not_eq_true] at hany
    simp only [hany, Bool.false_eq_true, if_false]
    exact findD_append_single m k v q hany

theorem getLastQ_cons {α : Type} (a : α) (l : List α) :
    (a :: l).getLast?
      = match l.getLast? with
        | some e => some e
        | none => some a := by
  cases l with
  | nil => rfl
  | cons b l =>
    rw [List.getLast?_cons_cons]
    cases hl : (b :: l).getLast? with
    | none =>
      rw [List.getLast?_eq_none_iff] at hl
      exact absurd hl (List.cons_ne_nil b l)
    | some e => rfl

theorem findD_foldl_insertD (prs : List (String × String))
    (m : List (String × String)) (q : String) :
    findD (prs.foldl (fun m pt => insertD m pt.1 pt.2) m) q
      = match (prs.filter (fun pt => decide (pt.1 = q))).getLast? with
        | some pt => some pt.2
        | none => findD m q := by
  induction prs generalizing m with
  | nil => simp
  | cons pt prs ih =>
    simp only [List.foldl_cons]
    rw [ih]
    by_cases hq : pt.1 = q
    · have hfc : (pt :: prs).filter (fun pt => decide (pt.1 = q))
          = pt :: prs.filter (fun pt => decide (pt.1 = q)) := by
        simp [List.filter_cons, hq]
      rw [hfc, getLastQ_cons]
      cases hl : (prs.filter (fun pt => decide (pt.1 = q))).getLast? with
      | none => simp [findD_insertD, hq]
      | some e => simp
    · have hfc : (pt :: prs).filter (fun pt => decide (pt.1 = q))
          = prs.filter (fun pt => decide (pt.1 = q)) := by
        simp [List.filter_cons, hq]
      rw [hfc]
      cases hl : (prs.filter (fun pt => decide (pt.1 = q))).getLast? with
      | none => rw [findD_insertD, if_neg (fun hh : q = pt.1 => hq hh.symm)]
      | some e => simp

/-- `findD` of a dict built from a pair list: the value of the last pair
carrying the key (later insertions overwrite earlier ones). -/
theorem findD_buildDict (prs : List (String × String)) (q : String) :
    findD (buildDict prs) q
      = ((prs.filter (fun pt => decide (pt.1 = q))).getLast?).map
          (fun pt => pt.2) := by
  rw [buildDict, findD_foldl_insertD]
  cases (prs.filter (fun pt => decide (pt.1 = q))).getLast? <;> simp [findD_nil]

/-! ### Deduplication lemmas -/

theorem dedupGo_congr (proj : List Val → List Val) (l : List (List Val)) :
    ∀ seen seen2 : List (List Val),
    (∀ p, p ∈ seen ↔ p ∈ seen2) →
    dedupGo proj seen l = dedupGo proj seen2 l := by
  induction l with
  | nil => intro seen seen2 _; rfl
  | cons r rs ih =>
    intro seen seen2 h
    simp only [dedupGo]
    by_cases hr : proj r ∈ seen
    · rw [if_pos hr, if_pos ((h (proj r)).mp hr)]
      exact ih seen seen2 h
    · rw [if_neg hr, if_neg (fun hh => hr ((h (proj r)).mpr hh))]
      have h2 : ∀ p, p ∈ proj r :: seen ↔ p ∈ proj r :: seen2 := by
        intro p
        simp only [List.mem_cons]
        exact or_congr Iff.rfl (h p)
      rw [ih (proj r :: seen) (proj r :: seen2) h2]

theorem dedupGo_cons_filter (proj : List Val → List Val) (l : List (List Val)) :
    ∀ (seen : List (List Val)) (p : List Val),
    dedupGo proj (p :: seen) l
      = dedupGo proj seen (l.filter (fun x => decide (¬ proj x = p))) := by
  induction l with
  | nil => intro seen p; rfl
  | cons r rs ih =>
    intro seen p
    by_cases hrp : proj r = p
    · have hfc : (r :: rs).filter (fun x => decide (¬ proj x = p))
          = rs.filter (fun x => decide (¬ proj x = p)) := by
        simp [List.filter_cons, hrp]
      rw [hfc, ← ih]
      simp only [dedupGo]
      rw [if_pos (by simp [hrp])]
    · have hfc : (r :: rs).filter (fun x => decide (¬ proj x = p))
          = r :: rs.filter (fun x => decide (¬ proj x = p)) := by
        simp [List.filter_cons, hrp]
      rw [hfc]
      simp only [dedupGo]
      by_cases hrs : proj r ∈ seen
      · rw [if_pos (by simp [hrs]), if_pos hrs, ih]
      · rw [if_neg (by simp [hrp, hrs]), if_neg hrs]
        have hswap : dedupGo proj (proj r :: p :: seen) rs
            = dedupGo proj (p :: proj r :: seen) rs := by
          apply dedupGo_congr
          intro x
          simp only [List.mem_cons]
          tauto
        rw [hswap, ih (proj r :: seen) p]

/-- The source's `drop_duplicates` scan agrees with the spec's description
"keep one row per distinct key combination, first occurrence wins". -/
theorem dedupGo_eq_keepFirstSpec (proj : List Val → List Val) :
    ∀ (n : Nat) (l : List (List Val)), l.length ≤ n →
    dedupGo proj [] l = keepFirstSpec proj l := by
  intro n
  induction n with
  | zero =>
    intro l hl
    rw [Nat.le_zero, List.length_eq_zero] at hl
    subst hl
    simp [dedupGo, keepFirstSpec]
  | succ n ih =>
    intro l hl
    cases l with
    | nil => simp [dedupGo, keepFirstSpec]
    | cons r rs =>
      simp only [dedupGo, keepFirstSpec]
      rw [if_neg (List.not_mem_nil (proj r)), dedupGo_cons_filter proj rs [] (proj r)]
      have : (rs.filter (fun x => decide (¬ proj x = proj r))).length ≤ n := by
        calc (rs.filter (fun x => decide (¬ proj x = proj r))).length
            ≤ rs.length := List.length_filter_le _ _
          _ ≤ n := by simpa using Nat.le_of_succ_le_succ hl
      rw [ih _ this]

/-- Removing a row whose key tuple already occurred earlier does not change
the result of the keep-first scan. -/
theorem dedupGo_drop_later_dup (proj : List Val → List Val)
    (xs : List (List Val)) :
    ∀ (seen : List (List Val)) (y : List Val) (ys : List (List Val)),
    (proj y ∈ seen ∨ ∃ x ∈ xs, proj x = proj y) →
    dedupGo proj seen (xs ++ y :: ys) = dedupGo proj seen (xs ++ ys) := by
  induction xs with
  | nil =>
    intro seen y ys h
    have hy : proj y ∈ seen := by
      rcases h with h | ⟨x, hx, _⟩
      · exact h
      · exact absurd hx (List.not_mem_nil x)
    simp only [List.nil_append, dedupGo]
    rw [if_pos hy]
  | cons x xs ih =>
    intro seen y ys h
    simp only [List.cons_append, dedupGo]
    by_cases hx : proj x ∈ seen
    · rw [if_pos hx, if_pos hx]
      apply ih
      rcases h with h | ⟨z, hz, hzy⟩
      · exact Or.inl h
      · rcases List.mem_cons.mp hz with rfl | hz2
        · exact Or.inl (hzy ▸ hx)
        · exact Or.inr ⟨z, hz2, hzy⟩
    · rw [if_neg hx, if_neg hx]
      congr 1
      apply ih
      rcases h with h | ⟨z, hz, hzy⟩
      · exact Or.inl (List.mem_cons_of_mem _ h)
      · rcases List.mem_cons.mp hz with rfl | hz2
        · exact Or.inl (hzy ▸ List.mem_cons_self _ _)
        · exact Or.inr ⟨z, hz2, hzy⟩

/-! ### Extraction lemmas -/

theorem cellStep_of_no_id (pre : String) (m : List (String × String)) (c : Cell)
    (h : cellHasId pre c = false) : cellStep pre m c = m := by
  obtain ⟨tg, ds, anchors⟩ := c
  cases anchors with
  | nil => rfl
  | cons a rest =>
    simp only [cellStep, cellHasId, List.head?_cons] at h ⊢
    cases hh : a.href with
    | none => rfl
    | some s =>
      rw [hh] at h
      simp only [String.toList] at h ⊢
      by_cases hs : s = ""
      · simp [hs]
      · cases hm : searchIdHref pre.data s.data with
        | none => simp [hs, hm]
        | some e => simp [hs, hm] at h

theorem foldl_cellStep_const (pre : String) (cells : List Cell) :
    ∀ m, (∀ c ∈ cells, cellHasId pre c = false) →
    cells.foldl (cellStep pre) m = m := by
  induction cells with
  | nil => intro m _; rfl
  | cons c cells ih =>
    intro m h
    rw [List.foldl_cons, cellStep_of_no_id pre m c (h c (List.mem_cons_self c cells))]
    exact ih m (fun c2 hc2 => h c2 (List.mem_cons_of_mem c hc2))

/-! ### Row Enricher lemmas -/

theorem presentPairs_filter_isSome (rows_data : List (Option String × Option String)) :
    presentPairs (rows_data.filter (fun r => r.1.isSome)) = presentPairs rows_data := by
  induction rows_data with
  | nil => rfl
  | cons r rs ih =>
    cases hr : r.1 with
    | none =>
      have hfc : (r :: rs).filter (fun r => r.1.isSome) = rs.filter (fun r => r.1.isSome) := by
        simp [List.filter_cons, hr]
      rw [hfc, ih]
      simp only [presentPairs, List.filterMap_cons, hr]
    | some p =>
      have hfc : (r :: rs).filter (fun r => r.1.isSome)
          = r :: rs.filter (fun r => r.1.isSome) := by
        simp [List.filter_cons, hr]
      rw [hfc]
      simp only [presentPairs, List.filterMap_cons, hr]
      cases r.2 <;> simp only [] <;> rw [← presentPairs, ← presentPairs, ih]

/-- Under the guarantee that present identifiers are nonempty (they are
captured by the `[a-f0-9]+` pattern), the source's truthiness-filtered dict
over the valid rows is the dict of the pairs with both sides present. -/
theorem foldl_idmap_eq_buildDict (l : List (Option String × Option String)) :
    ∀ m, (∀ r ∈ l, r.1 ≠ some "" ∧ r.2 ≠ some "") →
    l.foldl (fun m r =>
      match r.1, r.2 with
      | some p, some t => if p = "" ∨ t = "" then m else insertD m p t
      | _, _ => m) m
      = (presentPairs l).foldl (fun m pt => insertD m pt.1 pt.2) m := by
  induction l with
  | nil => intro m _; rfl
  | cons r rs ih =>
    intro m h
    have hr := h r (List.mem_cons_self r rs)
    have hrs := fun r2 hr2 => h r2 (List.mem_cons_of_mem r hr2)
    simp only [List.foldl_cons, presentPairs, List.filterMap_cons]
    cases h1 : r.1 with
    | none => cases h2 : r.2 <;> exact ih m hrs
    | some p =>
      cases h2 : r.2 with
      | none => exact ih m hrs
      | some t =>
        have hp : ¬ p = "" := fun hh => hr.1 (by rw [h1, hh])
        have ht : ¬ t = "" := fun hh => hr.2 (by rw [h2, hh])
        simp only [hp, ht, or_self, if_false, List.foldl_cons]
        exact ih (insertD m p t) hrs

/-- The identifier-keyed fallback branch of `add_team_id_to_player_df`,
expressed through the spec-side dict of present pairs. -/
theorem add_team_id_fallback (df : DataFrame)
    (rows_data : List (Option String × Option String))
    (hne : rows_data ≠ [])
    (hclean : ∀ r ∈ rows_data, r.1 ≠ some "" ∧ r.2 ≠ some "")
    (hmis : (rows_data.filter (fun r => r.1.isSome)).length ≠ df.rows.length)
    (hcol : "Player ID" ∈ df.cols) :
    add_team_id_to_player_df df rows_data
      = setCol df "Team ID"
          ((getCol df "Player ID").map
            (lookupVal (buildDict (presentPairs rows_data)))) := by
  unfold add_team_id_to_player_df
  rw [if_neg hne, if_pos hmis, if_pos hcol]
  have hcleanv : ∀ r ∈ rows_data.filter (fun r => r.1.isSome),
      r.1 ≠ some "" ∧ r.2 ≠ some "" :=
    fun r hr => hclean r (List.mem_of_mem_filter hr)
  rw [foldl_idmap_eq_buildDict _ _ hcleanv, presentPairs_filter_isSome, ← buildDict]

/-! ### Safe Merger lemmas -/

theorem existingKeys_ne_nil_keys_ne_nil {l r : DataFrame} {keys : List String}
    (h : existingKeys l r keys ≠ []) : keys ≠ [] := by
  intro hh
  exact h (by simp [existingKeys, hh])

/-- Unfolding of `safe_merge` on the non-degenerate path: both tables
non-empty and at least one key present on both sides. -/
theorem safe_merge_nondegenerate (l r : DataFrame) (keys : List String)
    (sfx : String × String)
    (h1 : dfEmpty l = false) (h2 : dfEmpty r = false)
    (h3 : existingKeys l r keys ≠ []) :
    safe_merge l r keys sfx
      = (mergeOuter l (dropDuplicates r (existingKeys l r keys))
           (existingKeys l r keys) sfx,
         decide (2 * (mergeOuter l (dropDuplicates r (existingKeys l r keys))
               (existingKeys l r keys) sfx).rows.length > 3 * l.rows.length
           ∧ (mergeOuter l (dropDuplicates r (existingKeys l r keys))
               (existingKeys l r keys) sfx).rows.length > 100)) := by
  have hk := existingKeys_ne_nil_keys_ne_nil h3
  simp only [safe_merge, h1, h2, Bool.false_eq_true, if_false, if_neg hk, if_neg h3]

theorem nat_gt_ratio_iff (M L : ℕ) : ((M : ℚ) > (3 / 2) * L) ↔ 2 * M > 3 * L := by
  rw [gt_iff_lt, div_mul_eq_mul_div, div_lt_iff₀ (by norm_num : (0:ℚ) < 2)]
  rw [mul_comm (M : ℚ) 2]
  constructor
  · intro h; exact_mod_cast h
  · intro h; exact_mod_cast h

theorem dupSuffixes_fst : dupSuffixes.1 = "" := rfl

theorem dupSuffixes_snd : dupSuffixes.2 = "_duplicate" := rfl

theorem dropDuplicates_cols (df : DataFrame) (ek : List String) :
    (dropDuplicates df ek).cols = df.cols := rfl

theorem mergeOuter_cols (l r : DataFrame) (ek : List String)
    (sfx : String × String) :
    (mergeOuter l r ek sfx).cols
      = l.cols.map (fun c =>
          if c ∈ ek then c else if c ∈ r.cols then c ++ sfx.1 else c)
        ++ (r.cols.filter (fun c => decide (¬ c ∈ ek))).map
            (fun c => if c ∈ l.cols then c ++ sfx.2 else c) := rfl

theorem map_left_suffix_id (cols rcols ek : List String) :
    cols.map (fun c => if c ∈ ek then c else if c ∈ rcols then c ++ "" else c)
      = cols := by
  conv_rhs => rw [← List.map_id cols]
  apply List.map_congr_left
  intro c _
  by_cases hc1 : c ∈ ek
  · simp [hc1]
  · by_cases hc2 : c ∈ rcols <;> simp [hc1, hc2, String.append_empty]

/-! ### Claim theorems -/

/-- C4: after a non-degenerate merge the fan-out warning fires if and only
if the merged row count exceeds both one-and-a-half times the accumulator's
row count and the absolute threshold of 100 rows, and the merged result is
returned regardless of the warning. -/
theorem c4_fanout_warning (l r : DataFrame) (keys : List String)
    (h1 : dfEmpty l = false) (h2 : dfEmpty r = false)
    (h3 : existingKeys l r keys ≠ []) :
    ((safe_merge l r keys dupSuffixes).2 = true ↔
      (((safe_merge l r keys dupSuffixes).1.rows.length : ℚ)
          > (3 / 2) * l.rows.length
        ∧ (safe_merge l r keys dupSuffixes).1.rows.length > 100))
    ∧ (safe_merge l r keys dupSuffixes).1
        = mergeOuter l (dropDuplicates r (existingKeys l r keys))
            (existingKeys l r keys) dupSuffixes := by
  have hmain := safe_merge_nondegenerate l r keys dupSuffixes h1 h2 h3
  simp only [hmain]
  constructor
  · rw [decide_eq_true_eq, nat_gt_ratio_iff]
  · trivial

theorem c4_witness :
    ((safe_merge ⟨["K"], [[Val.str "1"]]⟩ ⟨["K"], [[Val.str "2"]]⟩
        ["K"] dupSuffixes).2 = true ↔
      (((safe_merge ⟨["K"], [[Val.str "1"]]⟩ ⟨["K"], [[Val.str "2"]]⟩
            ["K"] dupSuffixes).1.rows.length : ℚ)
          > (3 / 2) * (⟨["K"], [[Val.str "1"]]⟩ : DataFrame).rows.length
        ∧ (safe_merge ⟨["K"], [[Val.str "1"]]⟩ ⟨["K"], [[Val.str "2"]]⟩
            ["K"] dupSuffixes).1.rows.length > 100))
    ∧ (safe_merge ⟨["K"], [[Val.str "1"]]⟩ ⟨["K"], [[Val.str "2"]]⟩
        ["K"] dupSuffixes).1
      = mergeOuter ⟨["K"], [[Val.str "1"]]⟩
          (dropDuplicates ⟨["K"], [[Val.str "2"]]⟩
            (existingKeys ⟨["K"], [[Val.str "1"]]⟩ ⟨["K"], [[Val.str "2"]]⟩
              ["K"]))
          (existingKeys ⟨["K"], [[Val.str "1"]]⟩ ⟨["K"], [[Val.str "2"]]⟩
            ["K"]) dupSuffixes :=
  c4_fanout_warning ⟨["K"], [[Val.str "1"]]⟩ ⟨["K"], [[Val.str "2"]]⟩ ["K"]
    (by decide) (by decide) (by decide)

/-- C2: on a non-degenerate merge the Safe Merger equals the full outer join
of the accumulator with the new table reduced to its first row per distinct
key combination; its columns are the accumulator's columns followed by the
new table's non-key columns, suffixed with "_duplicate" when colliding; and
removing a later row whose key combination already occurred leaves the
result unchanged — only the first occurrence contributes. -/
theorem c2_dedup_then_outer_join (l r : DataFrame) (keys : List String)
    (h1 : dfEmpty l = false) (h2 : dfEmpty r = false)
    (h3 : existingKeys l r keys ≠ []) :
    (safe_merge l r keys dupSuffixes).1
        = mergeOuter l
            ⟨r.cols, keepFirstSpec
              (keyTuple r.cols (existingKeys l r keys)) r.rows⟩
            (existingKeys l r keys) dupSuffixes
    ∧ (safe_merge l r keys dupSuffixes).1.cols
        = l.cols ++ (r.cols.filter (fun c =>
            decide (¬ c ∈ existingKeys l r keys))).map
            (fun c => if c ∈ l.cols then c ++ "_duplicate" else c)
    ∧ (∀ pre row1 mid row2 post,
        r.rows = pre ++ row1 :: (mid ++ row2 :: post) →
        keyTuple r.cols (existingKeys l r keys) row1
          = keyTuple r.cols (existingKeys l r keys) row2 →
        (safe_merge l r keys dupSuffixes).1
          = (safe_merge l ⟨r.cols, pre ++ row1 :: (mid ++ post)⟩ keys
              dupSuffixes).1) := by
  have hmain := safe_merge_nondegenerate l r keys dupSuffixes h1 h2 h3
  have hded : dropDuplicates r (existingKeys l r keys)
      = ⟨r.cols, keepFirstSpec (keyTuple r.cols (existingKeys l r keys)) r.rows⟩ := by
    simp only [dropDuplicates]
    congr 1
    exact dedupGo_eq_keepFirstSpec _ r.rows.length r.rows (le_refl _)
  refine ⟨?_, ?_, ?_⟩
  · simp only [hmain]
    exact congrArg
      (fun d => mergeOuter l d (existingKeys l r keys) dupSuffixes) hded
  · simp only [hmain, mergeOuter_cols, dropDuplicates_cols, dupSuffixes_fst,
      dupSuffixes_snd]
    rw [map_left_suffix_id]
  · intro pre row1 mid row2 post hrr hkey
    have h2b : dfEmpty ⟨r.cols, pre ++ row1 :: (mid ++ post)⟩ = false := by
      simp only [dfEmpty] at h2 ⊢
      rcases Bool.or_eq_false_iff.mp h2 with ⟨_, hb⟩
      apply Bool.or_eq_false_iff.mpr
      refine ⟨?_, hb⟩
      cases pre <;> rfl
    have h3b : existingKeys l ⟨r.cols, pre ++ row1 :: (mid ++ post)⟩ keys
        = existingKeys l r keys := rfl
    have hmain2 := safe_merge_nondegenerate l
      ⟨r.cols, pre ++ row1 :: (mid ++ post)⟩ keys dupSuffixes h1 h2b
      (h3b ▸ h3)
    simp only [hmain, hmain2, h3b]
    have hdd : dropDuplicates r (existingKeys l r keys)
        = dropDuplicates ⟨r.cols, pre ++ row1 :: (mid ++ post)⟩
            (existingKeys l r keys) := by
      simp only [dropDuplicates]
      congr 1
      rw [hrr]
      have hsh : pre ++ row1 :: (mid ++ row2 :: post)
          = (pre ++ row1 :: mid) ++ row2 :: post := by
        simp
      have hsh2 : pre ++ row1 :: (mid ++ post) = (pre ++ row1 :: mid) ++ post := by
        simp
      rw [hsh, hsh2]
      apply dedupGo_drop_later_dup
      exact Or.inr ⟨row1, by simp, hkey⟩
    rw [hdd]

theorem c2_witness :
    (safe_merge ⟨["K", "A"], [[Val.str "1", Val.str "a"]]⟩
        ⟨["K", "B"], [[Val.str "1", Val.str "b"], [Val.str "1", Val.str "c"]]⟩
        ["K"] dupSuffixes).1
      = mergeOuter ⟨["K", "A"], [[Val.str "1", Val.str "a"]]⟩
          ⟨["K", "B"], keepFirstSpec
            (keyTuple ["K", "B"]
              (existingKeys ⟨["K", "A"], [[Val.str "1", Val.str "a"]]⟩
                ⟨["K", "B"],
                  [[Val.str "1", Val.str "b"], [Val.str "1", Val.str "c"]]⟩
                ["K"]))
            [[Val.str "1", Val.str "b"], [Val.str "1", Val.str "c"]]⟩
          (existingKeys ⟨["K", "A"], [[Val.str "1", Val.str "a"]]⟩
            ⟨["K", "B"],
              [[Val.str "1", Val.str "b"], [Val.str "1", Val.str "c"]]⟩
            ["K"]) dupSuffixes
    ∧ (safe_merge ⟨["K", "A"], [[Val.str "1", Val.str "a"]]⟩
        ⟨["K", "B"], [[Val.str "1", Val.str "b"], [Val.str "1", Val.str "c"]]⟩
        ["K"] dupSuffixes).1.cols = ["K", "A", "B"]
    ∧ (safe_merge ⟨["K", "A"], [[Val.str "1", Val.str "a"]]⟩
        ⟨["K", "B"], [[Val.str "1", Val.str "b"], [Val.str "1", Val.str "c"]]⟩
        ["K"] dupSuffixes).1
      = (safe_merge ⟨["K", "A"], [[Val.str "1", Val.str "a"]]⟩
          ⟨["K", "B"], [[Val.str "1", Val.str "b"]]⟩ ["K"] dupSuffixes).1 :=
  ⟨(c2_dedup_then_outer_join ⟨["K", "A"], [[Val.str "1", Val.str "a"]]⟩
      ⟨["K", "B"], [[Val.str "1", Val.str "b"], [Val.str "1", Val.str "c"]]⟩
      ["K"] (by decide) (by decide) (by decide)).1,
   (c2_dedup_then_outer_join ⟨["K", "A"], [[Val.str "1", Val.str "a"]]⟩
      ⟨["K", "B"], [[Val.str "1", Val.str "b"], [Val.str "1", Val.str "c"]]⟩
      ["K"] (by decide) (by decide) (by decide)).2.1,
   (c2_dedup_then_outer_join ⟨["K", "A"], [[Val.str "1", Val.str "a"]]⟩
      ⟨["K", "B"], [[Val.str "1", Val.str "b"], [Val.str "1", Val.str "c"]]⟩
      ["K"] (by decide) (by decide) (by decide)).2.2
      [] [Val.str "1", Val.str "b"] [] [Val.str "1", Val.str "c"] []
      rfl (by decide)⟩

/-- C5: for kind team the Merge Key Resolver yields the team-identifier
column if present, else the team-name column, else nothing; for kind player
it yields whichever of the identifier columns are present (identifier first)
and only when neither is present whichever of the name columns are present;
in particular a team table with both identifier and name columns yields the
identifier column only. -/
theorem c5_get_merge_keys_resolution (df : DataFrame) :
    get_merge_keys df "team"
        = (if "Team ID" ∈ df.cols then ["Team ID"]
           else if "Squad" ∈ df.cols then ["Squad"] else [])
    ∧ get_merge_keys df "player"
        = (let ids := ["Player ID", "Team ID"].filter (fun c => decide (c ∈ df.cols))
           if ids = [] then ["Player", "Squad"].filter (fun c => decide (c ∈ df.cols))
           else ids)
    ∧ ("Team ID" ∈ df.cols → "Squad" ∈ df.cols →
        get_merge_keys df "team" = ["Team ID"])
    ∧ (¬ "Player ID" ∈ df.cols → ¬ "Team ID" ∈ df.cols → "Player" ∈ df.cols →
        "Squad" ∈ df.cols → get_merge_keys df "player" = ["Player", "Squad"]) := by
  refine ⟨?_, ?_, ?_, ?_⟩
  · by_cases h1 : "Team ID" ∈ df.cols <;> by_cases h2 : "Squad" ∈ df.cols <;>
      simp [get_merge_keys, h1, h2]
  · by_cases h1 : "Player ID" ∈ df.cols <;> by_cases h2 : "Team ID" ∈ df.cols <;>
      by_cases h3 : "Player" ∈ df.cols <;> by_cases h4 : "Squad" ∈ df.cols <;>
      simp [get_merge_keys, List.filter_cons, h1, h2, h3, h4]
  · intro h1 _
    simp [get_merge_keys, h1]
  · intro h1 h2 h3 h4
    simp [get_merge_keys, h1, h2, h3, h4]

theorem c5_witness :
    get_merge_keys ⟨["Team ID", "Squad"], []⟩ "team" = ["Team ID"]
    ∧ get_merge_keys ⟨["Player", "Squad"], []⟩ "player" = ["Player", "Squad"] :=
  ⟨(c5_get_merge_keys_resolution ⟨["Team ID", "Squad"], []⟩).2.2.1
      (by decide) (by decide),
   (c5_get_merge_keys_resolution ⟨["Player", "Squad"], []⟩).2.2.2
      (by decide) (by decide) (by decide) (by decide)⟩

/-- C6: on a two-level header every column is renamed to the sub-label alone
when the group label is an auto-generated placeholder (contains "Unnamed"),
else to group label ++ " " ++ sub-label (stated for whitespace-clean labels,
where the source's strip is the identity); on a non-two-level header the
function is the identity, even in the presence of an "Rk" column. -/
theorem c6_column_normalizer (prs : List (String × String)) (names : List String)
    (rows rows2 : List (List Val))
    (hwf : ∀ pr ∈ prs, pyStrip pr.2 = pr.2
      ∧ pyStrip (pr.1 ++ " " ++ pr.2) = pr.1 ++ " " ++ pr.2) :
    (flatten_multiindex_columns ⟨.multi prs, rows⟩).columns
        = .flat (prs.map (fun pr =>
            if strContains pr.1 "Unnamed" then pr.2 else pr.1 ++ " " ++ pr.2))
    ∧ flatten_multiindex_columns ⟨.flat names, rows2⟩ = ⟨.flat names, rows2⟩ := by
  constructor
  · have hcols : (flatten_multiindex_columns ⟨.multi prs, rows⟩).columns
        = .flat (prs.map (fun col =>
            if strContains col.1 "Unnamed" then pyStrip col.2
            else pyStrip (col.1 ++ " " ++ col.2))) := by
      simp only [flatten_multiindex_columns]
      split <;> rfl
    rw [hcols]
    have hmap : prs.map (fun col =>
          if strContains col.1 "Unnamed" then pyStrip col.2
          else pyStrip (col.1 ++ " " ++ col.2))
        = prs.map (fun pr =>
            if strContains pr.1 "Unnamed" then pr.2 else pr.1 ++ " " ++ pr.2) := by
      apply List.map_congr_left
      intro pr hpr
      rcases hwf pr hpr with ⟨h2, h12⟩
      by_cases hu : strContains pr.1 "Unnamed"
      · simp [hu, h2]
      · simp [hu, h12]
    rw [hmap]
  · rfl

theorem c6_witness :
    (flatten_multiindex_columns
        ⟨.multi [("Unnamed: 0_level_0", "Rk"), ("Expected", "xG")], []⟩).columns
      = .flat ([("Unnamed: 0_level_0", "Rk"), ("Expected", "xG")].map (fun pr =>
          if strContains pr.1 "Unnamed" then pr.2 else pr.1 ++ " " ++ pr.2))
    ∧ flatten_multiindex_columns ⟨.flat ["Rk"], [[Val.str "Rk"]]⟩
      = ⟨.flat ["Rk"], [[Val.str "Rk"]]⟩ :=
  c6_column_normalizer [("Unnamed: 0_level_0", "Rk"), ("Expected", "xG")]
    ["Rk"] [] [[Val.str "Rk"]] (by decide)

/-- C7: the ID Extractor yields an empty mapping for a null input table and
for any table none of whose relevant cells carries a first link whose href
matches the collection/hex-id pattern; non-matching cells are skipped
silently (the scan is total and simply leaves the mapping untouched). -/
theorem c7_id_extractor_empty (t : HtmlTable) (id_type id_type2 : String)
    (h : ∀ c ∈ relevantCells t id_type,
      cellHasId (patPre id_type) c = false) :
    extract_ids_from_soup none id_type2 = []
    ∧ extract_ids_from_soup (some t) id_type = [] := by
  refine ⟨rfl, ?_⟩
  simp only [extract_ids_from_soup]
  exact foldl_cellStep_const _ _ [] h

theorem c7_witness :
    extract_ids_from_soup none "squad" = []
    ∧ extract_ids_from_soup
        (some ⟨[⟨[], [⟨CellTag.td, "player",
            [⟨some "/en/comps/9/Premier-League-Stats", "Premier League"⟩]⟩]⟩],
          none⟩) "player" = [] :=
  c7_id_extractor_empty
    ⟨[⟨[], [⟨CellTag.td, "player",
        [⟨some "/en/comps/9/Premier-League-Stats", "Premier League"⟩]⟩]⟩],
      none⟩ "player" "squad" (by decide)

/-- C8: after the driver strips merge-artifact columns, none of the three
consolidated tables has a column whose name contains "_duplicate". -/
theorem c8_no_duplicate_marker_columns (ts : DataFrame × DataFrame × DataFrame)
    (c : String)
    (h : c ∈ (strip_artifact_columns ts).1.cols
      ∨ c ∈ (strip_artifact_columns ts).2.1.cols
      ∨ c ∈ (strip_artifact_columns ts).2.2.cols) :
    strContains c "_duplicate" = false := by
  have key : ∀ df : DataFrame, c ∈ (remove_duplicate_columns df).cols →
      strContains c "_duplicate" = false := by
    intro df hc
    simp only [remove_duplicate_columns] at hc
    have := List.of_mem_filter hc
    simpa using this
  rcases h with h | h | h
  · exact key ts.1 h
  · exact key ts.2.1 h
  · exact key ts.2.2 h

theorem c8_witness : strContains "Team ID" "_duplicate" = false :=
  c8_no_duplicate_marker_columns
    (⟨["Team ID", "Gls_duplicate"], []⟩, ⟨["Squad"], []⟩, ⟨[], []⟩)
    "Team ID" (Or.inl (by decide))

/-- C10: the extracted association list is empty for a null input table and
for a table without a body, and the Row Enricher returns the player table
unchanged on an empty association list — in particular it adds no
team-identifier column. -/
theorem c10_empty_association_unchanged (df df2 df3 : DataFrame)
    (t : HtmlTable) (hb : t.tbody = none) :
    extract_player_team_ids_from_soup none = []
    ∧ extract_player_team_ids_from_soup (some t) = []
    ∧ add_team_id_to_player_df df (extract_player_team_ids_from_soup none) = df
    ∧ add_team_id_to_player_df df2 (extract_player_team_ids_from_soup (some t))
        = df2
    ∧ (¬ "Team ID" ∈ df3.cols →
        ¬ "Team ID" ∈ (add_team_id_to_player_df df3
          (extract_player_team_ids_from_soup (some t))).cols) := by
  have h2 : extract_player_team_ids_from_soup (some t) = [] := by
    simp only [extract_player_team_ids_from_soup, hb]
  have hadd : ∀ d : DataFrame, add_team_id_to_player_df d [] = d := by
    intro d
    simp [add_team_id_to_player_df]
  refine ⟨rfl, h2, hadd df, ?_, ?_⟩
  · rw [h2]
    exact hadd df2
  · rw [h2, hadd df3]
    exact fun h => h

theorem c10_witness :
    extract_player_team_ids_from_soup none = []
    ∧ extract_player_team_ids_from_soup (some ⟨[⟨[], []⟩], none⟩) = []
    ∧ add_team_id_to_player_df ⟨["Player"], [[Val.str "A"]]⟩
        (extract_player_team_ids_from_soup none) = ⟨["Player"], [[Val.str "A"]]⟩
    ∧ add_team_id_to_player_df ⟨["Player"], [[Val.str "B"]]⟩
        (extract_player_team_ids_from_soup (some ⟨[⟨[], []⟩], none⟩))
        = ⟨["Player"], [[Val.str "B"]]⟩
    ∧ (¬ "Team ID" ∈ (⟨["Player"], [[Val.str "C"]]⟩ : DataFrame).cols →
        ¬ "Team ID" ∈ (add_team_id_to_player_df ⟨["Player"], [[Val.str "C"]]⟩
          (extract_player_team_ids_from_soup (some ⟨[⟨[], []⟩], none⟩))).cols) :=
  c10_empty_association_unchanged ⟨["Player"], [[Val.str "A"]]⟩
    ⟨["Player"], [[Val.str "B"]]⟩ ⟨["Player"], [[Val.str "C"]]⟩
    ⟨[⟨[], []⟩], none⟩ rfl

/-- C1 counterexample: on an empty association list and a one-row table with
a "Player ID" column the counts differ (0 vs 1), so the claim prescribes the
identifier-keyed assignment of a "Team ID" column; the code's initial
`if not rows_data: return df` guard returns the table unchanged instead. -/
theorem c1_counterexample :
    add_team_id_to_player_df ⟨["Player ID"], [[Val.str "p1"]]⟩ []
      ≠ setCol ⟨["Player ID"], [[Val.str "p1"]]⟩ "Team ID"
          ((getCol ⟨["Player ID"], [[Val.str "p1"]]⟩ "Player ID").map
            (lookupVal (buildDict (presentPairs [])))) := by
  decide

/-- C1 (amended): for a non-empty association list whose identifiers are
never the empty string, the Row Enricher assigns the team-identifier column
positionally when the count of entries with a present player identifier
equals the table's row count; on differing counts it assigns, when a
"Player ID" column exists, each row the lookup of its player identifier in
the dict of the both-present pairs (absent identifiers give a missing
value), and returns the table unchanged when that column is missing. -/
theorem c1_row_enricher_assignment (df : DataFrame)
    (rows_data : List (Option String × Option String))
    (hne : rows_data ≠ [])
    (hclean : ∀ r ∈ rows_data, r.1 ≠ some "" ∧ r.2 ≠ some "") :
    ((rows_data.filter (fun r => r.1.isSome)).length = df.rows.length →
      add_team_id_to_player_df df rows_data
        = setCol df "Team ID"
            ((rows_data.filter (fun r => r.1.isSome)).map
              (fun r => Val.ofOption r.2)))
    ∧ ((rows_data.filter (fun r => r.1.isSome)).length ≠ df.rows.length →
        "Player ID" ∈ df.cols →
        add_team_id_to_player_df df rows_data
          = setCol df "Team ID"
              ((getCol df "Player ID").map
                (lookupVal (buildDict (presentPairs rows_data)))))
    ∧ ((rows_data.filter (fun r => r.1.isSome)).length ≠ df.rows.length →
        ¬ "Player ID" ∈ df.cols →
        add_team_id_to_player_df df rows_data = df) := by
  refine ⟨?_, ?_, ?_⟩
  · intro heq
    simp only [add_team_id_to_player_df]
    rw [if_neg hne, if_neg (fun hC => hC heq)]
  · exact fun hmis hcol => add_team_id_fallback df rows_data hne hclean hmis hcol
  · intro hmis hcol
    simp only [add_team_id_to_player_df]
    rw [if_neg hne, if_pos hmis, if_neg hcol]

theorem c1_witness :
    (([((some "p1" : Option String), (some "t1" : Option String))].filter
        (fun r => r.1.isSome)).length
      = (⟨["Player ID"], [[Val.str "p1"]]⟩ : DataFrame).rows.length →
      add_team_id_to_player_df ⟨["Player ID"], [[Val.str "p1"]]⟩
          [(some "p1", some "t1")]
        = setCol ⟨["Player ID"], [[Val.str "p1"]]⟩ "Team ID"
            (([((some "p1" : Option String), (some "t1" : Option String))].filter
                (fun r => r.1.isSome)).map (fun r => Val.ofOption r.2)))
    ∧ (([((some "p1" : Option String), (some "t1" : Option String))].filter
          (fun r => r.1.isSome)).length
        ≠ (⟨["Player ID"], [[Val.str "p1"]]⟩ : DataFrame).rows.length →
        "Player ID" ∈ (⟨["Player ID"], [[Val.str "p1"]]⟩ : DataFrame).cols →
        add_team_id_to_player_df ⟨["Player ID"], [[Val.str "p1"]]⟩
            [(some "p1", some "t1")]
          = setCol ⟨["Player ID"], [[Val.str "p1"]]⟩ "Team ID"
              ((getCol ⟨["Player ID"], [[Val.str "p1"]]⟩ "Player ID").map
                (lookupVal (buildDict (presentPairs [(some "p1", some "t1")])))))
    ∧ (([((some "p1" : Option String), (some "t1" : Option String))].filter
          (fun r => r.1.isSome)).length
        ≠ (⟨["Player ID"], [[Val.str "p1"]]⟩ : DataFrame).rows.length →
        ¬ "Player ID" ∈ (⟨["Player ID"], [[Val.str "p1"]]⟩ : DataFrame).cols →
        add_team_id_to_player_df ⟨["Player ID"], [[Val.str "p1"]]⟩
            [(some "p1", some "t1")]
          = ⟨["Player ID"], [[Val.str "p1"]]⟩) :=
  c1_row_enricher_assignment ⟨["Player ID"], [[Val.str "p1"]]⟩
    [(some "p1", some "t1")] (by decide) (by decide)

/-- C9: in the identifier-keyed fallback path the dict retains, for every
player identifier, the team identifier of the last both-present pair in row
order (later pairs overwrite earlier ones), and each row with that player
identifier is assigned that last-seen team identifier. -/
theorem c9_fallback_last_pair_wins (df : DataFrame)
    (rows_data : List (Option String × Option String))
    (hne : rows_data ≠ [])
    (hclean : ∀ r ∈ rows_data, r.1 ≠ some "" ∧ r.2 ≠ some "")
    (hmis : (rows_data.filter (fun r => r.1.isSome)).length ≠ df.rows.length)
    (hcol : "Player ID" ∈ df.cols) :
    (∀ q, findD (buildDict (presentPairs rows_data)) q
        = (((presentPairs rows_data).filter
            (fun pt => decide (pt.1 = q))).getLast?).map (fun pt => pt.2))
    ∧ add_team_id_to_player_df df rows_data
        = setCol df "Team ID"
            ((getCol df "Player ID").map (fun v =>
              match v with
              | .str s =>
                match ((presentPairs rows_data).filter
                    (fun pt => decide (pt.1 = s))).getLast? with
                | some pt => Val.str pt.2
                | none => Val.na
              | .na => Val.na)) := by
  constructor
  · exact fun q => findD_buildDict _ q
  · rw [add_team_id_fallback df rows_data hne hclean hmis hcol]
    have hfun : lookupVal (buildDict (presentPairs rows_data))
        = fun v =>
            match v with
            | Val.str s =>
              match ((presentPairs rows_data).filter
                  (fun pt => decide (pt.1 = s))).getLast? with
              | some pt => Val.str pt.2
              | none => Val.na
            | Val.na => Val.na := by
      funext v
      cases v with
      | na => rfl
      | str s =>
        simp only [lookupVal, findD_buildDict]
        cases ((presentPairs rows_data).filter
            (fun pt => decide (pt.1 = s))).getLast? <;> rfl
    rw [hfun]

theorem c9_witness :
    findD (buildDict (presentPairs
        [((some "p1" : Option String), (some "t1" : Option String)),
         (some "p1", some "t2")])) "p1"
      = (((presentPairs [((some "p1" : Option String),
            (some "t1" : Option String)), (some "p1", some "t2")]).filter
          (fun pt => decide (pt.1 = "p1"))).getLast?).map (fun pt => pt.2)
    ∧ add_team_id_to_player_df ⟨["Player ID"], [[Val.str "p1"]]⟩
        [(some "p1", some "t1"), (some "p1", some "t2")]
      = setCol ⟨["Player ID"], [[Val.str "p1"]]⟩ "Team ID"
          ((getCol ⟨["Player ID"], [[Val.str "p1"]]⟩ "Player ID").map (fun v =>
            match v with
            | .str s =>
              match ((presentPairs [((some "p1" : Option String),
                  (some "t1" : Option String)), (some "p1", some "t2")]).filter
                  (fun pt => decide (pt.1 = s))).getLast? with
              | some pt => Val.str pt.2
              | none => Val.na
            | .na => Val.na)) :=
  ⟨(c9_fallback_last_pair_wins ⟨["Player ID"], [[Val.str "p1"]]⟩
      [(some "p1", some "t1"), (some "p1", some "t2")]
      (by decide) (by decide) (by decide) (by decide)).1 "p1",
   (c9_fallback_last_pair_wins ⟨["Player ID"], [[Val.str "p1"]]⟩
      [(some "p1", some "t1"), (some "p1", some "t2")]
      (by decide) (by decide) (by decide) (by decide)).2⟩

/-- C3: the Safe Merger's guards, in the order the code checks them: an
empty accumulator returns the new table; otherwise an empty new table
returns the accumulator unchanged; otherwise an empty key list, or no listed
key present in both tables, returns the accumulator unchanged, silently
dropping the new table's data. -/
theorem c3_safe_merge_degenerate (l r : DataFrame) (keys : List String) :
    (dfEmpty l = true → (safe_merge l r keys dupSuffixes).1 = r)
    ∧ (dfEmpty l = false → dfEmpty r = true →
        (safe_merge l r keys dupSuffixes).1 = l)
    ∧ (dfEmpty l = false → dfEmpty r = false →
        keys = [] ∨ existingKeys l r keys = [] →
        (safe_merge l r keys dupSuffixes).1 = l) := by
  refine ⟨?_, ?_, ?_⟩
  · intro h
    simp [safe_merge, h]
  · intro h1 h2
    simp [safe_merge, h1, h2]
  · intro h1 h2 h3
    by_cases hk : keys = []
    · simp [safe_merge, h1, h2, hk]
    · rcases h3 with h3 | h3
      · exact absurd h3 hk
      · simp [safe_merge, h1, h2, hk, h3]

theorem c3_witness :
    (safe_merge ⟨[], []⟩ ⟨["A"], [[Val.str "x"]]⟩ ["A"] dupSuffixes).1
        = ⟨["A"], [[Val.str "x"]]⟩
    ∧ (safe_merge ⟨["A"], [[Val.str "x"]]⟩ ⟨["A"], []⟩ ["A"] dupSuffixes).1
        = ⟨["A"], [[Val.str "x"]]⟩
    ∧ (safe_merge ⟨["A"], [[Val.str "x"]]⟩ ⟨["B"], [[Val.str "y"]]⟩
        ["K"] dupSuffixes).1 = ⟨["A"], [[Val.str "x"]]⟩ :=
  ⟨(c3_safe_merge_degenerate ⟨[], []⟩ ⟨["A"], [[Val.str "x"]]⟩ ["A"]).1
      (by decide),
   (c3_safe_merge_degenerate ⟨["A"], [[Val.str "x"]]⟩ ⟨["A"], []⟩ ["A"]).2.1
      (by decide) (by decide),
   (c3_safe_merge_degenerate ⟨["A"], [[Val.str "x"]]⟩ ⟨["B"], [[Val.str "y"]]⟩
      ["K"]).2.2 (by decide) (by decide) (Or.inr (by decide))⟩

end FBrefModel
